import Mathlib

set_option maxHeartbeats 1000000

/- Shallow embedding of the link-in-bio rendering script (src/script.js).

   JS values are modelled as follows: optional JSON fields become `Option`;
   JS truthiness on string fields ("" and absent are falsy) becomes
   `truthyStr`; strict `!== false` on the optional boolean `active` is a
   direct comparison with `some false`; JS string `.length` (UTF-16 code
   units) becomes `utf16Len`; the regex test `[\u{1F300}-\u{1F9FF}]` becomes
   `hasPictographic`; bracket access on the `ICON_MAP` object literal
   consults its own properties and then the prototype chain, so it can also
   find a (truthy, non-string) property inherited from `Object.prototype`,
   modelled by `JsVal.inherited`; the DOM is a record of presentation slots,
   where a slot that may be missing from the markup is an `Option` (the
   renderer skips a missing slot, mirroring the `getElementById` null
   checks); `innerHTML` assignments and appended cards become a
   `ContainerContent` value. -/

/-- JS truthiness of an optional string field: absent and `""` are falsy. -/
def truthyStr : Option String → Bool
  | none => false
  | some s => s != ""

/-- JS truthiness of an optional boolean field: only `true` is truthy. -/
def truthyBool : Option Bool → Bool
  | none => false
  | some b => b

/-- Number of UTF-16 code units a character occupies (JS `String.length` counts these). -/
def utf16CharLen (c : Char) : Nat :=
  if c.toNat < 0x10000 then 1 else 2

/-- JS `String.length`: the number of UTF-16 code units of the string. -/
def utf16Len (s : String) : Nat :=
  (s.toList.map utf16CharLen).sum

/-- One character of the pictographic range tested by the regex `[\u{1F300}-\u{1F9FF}]`. -/
def isPictographic (c : Char) : Bool :=
  decide (0x1F300 ≤ c.toNat) && decide (c.toNat ≤ 0x1F9FF)

/-- The regex test `/[\u{1F300}-\u{1F9FF}]/u.test s`: some character is in the range. -/
def hasPictographic (s : String) : Bool :=
  s.toList.any isPictographic

/-- The `ICON_MAP` object literal of script.js, as an association list in source order. -/
def ICON_MAP : List (String × String) :=
  [("portfolio", "💼"),
   ("resume", "📄"),
   ("linkedin", "💼"),
   ("blog", "✍️"),
   ("github", "👨‍💻"),
   ("email", "✉️"),
   ("twitter", "🐦"),
   ("website", "🌐"),
   ("youtube", "📺"),
   ("medium", "📝"),
   ("dribbble", "🎨"),
   ("behance", "🎨"),
   ("instagram", "📸"),
   ("facebook", "👥"),
   ("discord", "💬"),
   ("slack", "💬"),
   ("telegram", "✈️"),
   ("whatsapp", "💬"),
   ("phone", "📞"),
   ("calendar", "📅"),
   ("research", "🔬"),
   ("publication", "📚"),
   ("project", "🚀"),
   ("default", "🔗")]

/-- One character of JS `toLowerCase`: the ASCII capitals, the Latin-1
    capitals (except the multiplication sign) and the compatibility
    singletons KELVIN SIGN (U+212A → k) and ANGSTROM SIGN (U+212B → å) are
    mapped down. The remaining Unicode default case conversions (other
    scripts' capitals) are approximated by the identity; no theorem below
    evaluates the normalization outside this covered range. -/
def jsCharToLower (c : Char) : Char :=
  let n := c.toNat
  if 0x41 ≤ n ∧ n ≤ 0x5A then Char.ofNat (n + 0x20)
  else if 0xC0 ≤ n ∧ n ≤ 0xDE ∧ n ≠ 0xD7 then Char.ofNat (n + 0x20)
  else if n = 0x212A then Char.ofNat 0x6B
  else if n = 0x212B then Char.ofNat 0xE5
  else c

/-- JS `String.prototype.toLowerCase`, modelled on the character list. -/
def jsToLower (s : String) : String :=
  String.mk (s.data.map jsCharToLower)

/-- The characters JS `trim` strips: WhiteSpace (TAB, VT, FF, SP, NBSP,
    FEFF and the Unicode space separators) and LineTerminator (LF, CR, LS, PS). -/
def jsWhitespaceChars : List Char :=
  [Char.ofNat 0x9, Char.ofNat 0xA, Char.ofNat 0xB, Char.ofNat 0xC, Char.ofNat 0xD,
   Char.ofNat 0x20, Char.ofNat 0xA0, Char.ofNat 0x1680,
   Char.ofNat 0x2000, Char.ofNat 0x2001, Char.ofNat 0x2002, Char.ofNat 0x2003,
   Char.ofNat 0x2004, Char.ofNat 0x2005, Char.ofNat 0x2006, Char.ofNat 0x2007,
   Char.ofNat 0x2008, Char.ofNat 0x2009, Char.ofNat 0x200A,
   Char.ofNat 0x2028, Char.ofNat 0x2029, Char.ofNat 0x202F, Char.ofNat 0x205F,
   Char.ofNat 0x3000, Char.ofNat 0xFEFF]

/-- Whether JS `trim` strips this character. -/
def isJsWhitespace (c : Char) : Bool :=
  jsWhitespaceChars.contains c

/-- JS `String.prototype.trim`: drop leading and trailing JS whitespace. -/
def jsTrim (s : String) : String :=
  String.mk (((s.data.dropWhile isJsWhitespace).reverse.dropWhile isJsWhitespace).reverse)

/-- A value found by JS bracket access on the `ICON_MAP` object literal:
    one of its own string properties, or a value inherited from
    `Object.prototype` (a function — or, for `__proto__`, an object) that
    is not a glyph string, identified by its property name. -/
inductive JsVal where
  | str (s : String)
  | inherited (name : String)
deriving Repr, DecidableEq

/-- The property names every plain object literal inherits from
    `Object.prototype`; bracket access finds them when the key is not an own
    property, and each of their values is truthy and not a string. -/
def objectProtoProps : List String :=
  ["constructor", "hasOwnProperty", "isPrototypeOf", "propertyIsEnumerable",
   "toLocaleString", "toString", "valueOf", "__defineGetter__",
   "__defineSetter__", "__lookupGetter__", "__lookupSetter__", "__proto__"]

/-- JS bracket access `ICON_MAP[name]`: the own properties of the object
    literal are consulted first, then the prototype chain; `none` models
    `undefined`. -/
def iconMapGet (name : String) : Option JsVal :=
  match ICON_MAP.lookup name with
  | some g => some (JsVal.str g)
  | none =>
    if objectProtoProps.contains name then some (JsVal.inherited name)
    else none

/-- JS truthiness of a value found on the object: a string is truthy when
    non-empty; an inherited function or object is always truthy. -/
def truthyVal : JsVal → Bool
  | JsVal.str s => s != ""
  | JsVal.inherited _ => true

/-- `ICON_MAP.default` of script.js: the default glyph. -/
def mapDefault : String :=
  (ICON_MAP.lookup "default").getD ""

/-- `LinkTreeApp.getIcon` (script.js lines 174-185). The expression
    `ICON_MAP[normalizedName] || ICON_MAP.default` is modelled by bracket
    access through the prototype chain (`iconMapGet`) followed by the JS
    truthiness test of the found value. -/
def getIcon (iconName : Option String) : JsVal :=
  if !truthyStr iconName then JsVal.str mapDefault
  else
    let s := iconName.getD ""
    if utf16Len s ≤ 3 ∧ hasPictographic s = true then JsVal.str s
    else
      let normalizedName := jsTrim (jsToLower s)
      match iconMapGet normalizedName with
      | some v => if truthyVal v then v else JsVal.str mapDefault
      | none => JsVal.str mapDefault

/-- A link record of the JSON document (spec section 3). -/
structure LinkRecord where
  url : String
  title : String
  description : Option String
  icon : Option String
  active : Option Bool
  analytics : Option Bool
deriving Repr, DecidableEq

/-- A profile record of the JSON document (spec section 3). -/
structure ProfileRecord where
  image : Option String
  name : Option String
  title : Option String
  bio : Option String
deriving Repr, DecidableEq

/-- The parsed JSON document: `data.profile` and `data.links`. -/
structure LinkDocument where
  profile : Option ProfileRecord
  links : Option (List LinkRecord)
deriving Repr, DecidableEq

/-- A rendered link card, the DOM subtree built by `createLinkCard`:
    anchor attributes, optional click tracker, the value assigned to the
    icon element's `innerHTML`, title text, optional description element and
    the arrow glyph. `descriptionText = none` means the description element
    was not created at all. -/
structure Card where
  href : String
  target : String
  rel : String
  ariaLabel : String
  tracksClicks : Bool
  iconHtml : JsVal
  titleText : String
  descriptionText : Option String
  arrowHtml : String
deriving Repr, DecidableEq

/-- Contents of the links container element: either raw HTML set through
    `innerHTML` (the loading message, the no-links placeholder or the error
    view), or a cleared container with a list of appended cards. -/
inductive ContainerContent where
  | html (s : String)
  | cards (cs : List Card)
deriving Repr, DecidableEq

/-- The cards currently shown by the container. -/
def cardsOf : ContainerContent → List Card
  | ContainerContent.html _ => []
  | ContainerContent.cards cs => cs

/-- The profile image element: its `src` and `alt` attributes. -/
structure ImageSlot where
  src : String
  alt : String
deriving Repr, DecidableEq

/-- The page state touched by the script: the four profile presentation
    slots (each `Option`, `none` when the element is absent from the markup),
    the page title and the links container. -/
structure Dom where
  profileImage : Option ImageSlot
  profileName : Option String
  profileTitle : Option String
  profileBio : Option String
  docTitle : String
  container : ContainerContent
deriving Repr, DecidableEq

/-- The `profile.image` block of `updateProfile` (script.js lines 75-82). -/
def setImage (p : ProfileRecord) (d : Dom) : Dom :=
  if truthyStr p.image then
    match d.profileImage with
    | some _ =>
        let altText := if truthyStr p.name then p.name.getD "" else "Profile Picture"
        { d with profileImage := some { src := p.image.getD "", alt := altText } }
    | none => d
  else d

/-- The `profile.name` block of `updateProfile` (script.js lines 84-91):
    sets the name slot when the element exists, and always sets
    `document.title` to the composite heading. -/
def setName (p : ProfileRecord) (d : Dom) : Dom :=
  if truthyStr p.name then
    let d1 :=
      match d.profileName with
      | some _ => { d with profileName := some (p.name.getD "") }
      | none => d
    { d1 with docTitle :=
        p.name.getD "" ++ " | " ++ (if truthyStr p.title then p.title.getD "" else "Links") }
  else d

/-- The `profile.title` block of `updateProfile` (script.js lines 93-97). -/
def setTitle (p : ProfileRecord) (d : Dom) : Dom :=
  if truthyStr p.title then
    match d.profileTitle with
    | some _ => { d with profileTitle := some (p.title.getD "") }
    | none => d
  else d

/-- The `profile.bio` block of `updateProfile` (script.js lines 99-103). -/
def setBio (p : ProfileRecord) (d : Dom) : Dom :=
  if truthyStr p.bio then
    match d.profileBio with
    | some _ => { d with profileBio := some (p.bio.getD "") }
    | none => d
  else d

/-- `LinkTreeApp.updateProfile` (script.js lines 72-104): early return on a
    falsy profile, then the four field blocks in source order. -/
def updateProfile (profile : Option ProfileRecord) (d : Dom) : Dom :=
  match profile with
  | none => d
  | some p => setBio p (setTitle p (setName p (setImage p d)))

/-- `LinkTreeApp.createLinkCard` (script.js lines 125-172). The unused JS
    `index` parameter is kept. -/
def createLinkCard (link : LinkRecord) (index : Nat) : Card :=
  { href := link.url,
    target := "_blank",
    rel := "noopener noreferrer",
    ariaLabel := link.title,
    tracksClicks := truthyBool link.analytics,
    iconHtml := getIcon link.icon,
    titleText := link.title,
    descriptionText := if truthyStr link.description then link.description else none,
    arrowHtml := "→" }

/-- The placeholder HTML written when there are no links (script.js line 108). -/
def noLinksHtml : String :=
  "<p class=\"loading\">No links available</p>"

/-- `LinkTreeApp.renderLinks` (script.js lines 106-123): absent or empty
    input writes the placeholder; otherwise the container is cleared, the
    records with `active !== false` survive the filter and one card per
    survivor is appended in order (`forEach` passes the index along). -/
def renderLinks (links : Option (List LinkRecord)) (d : Dom) : Dom :=
  match links with
  | none => { d with container := ContainerContent.html noLinksHtml }
  | some ls =>
    if ls.length = 0 then { d with container := ContainerContent.html noLinksHtml }
    else
      let activeLinks := ls.filter (fun link => link.active != some false)
      { d with container :=
          ContainerContent.cards (activeLinks.enum.map (fun pr => createLinkCard pr.2 pr.1)) }

/-- The error view HTML written by `handleError` (script.js lines 203-210). -/
def errorHtml : String :=
  "<div class=\"loading\" style=\"color: #E53E3E;\">\n" ++
  "  <p>⚠️ Error loading links</p>\n" ++
  "  <p style=\"font-size: 0.9rem; margin-top: 0.5rem;\">\n" ++
  "    Please make sure <code>links.json</code> exists and is valid JSON.\n" ++
  "  </p>\n" ++
  "</div>"

/-- `LinkTreeApp.handleError` (script.js lines 201-211): replaces the links
    container contents with the static error view; nothing else is touched. -/
def handleError (d : Dom) : Dom :=
  { d with container := ContainerContent.html errorHtml }

/-- Outcome of the single `fetch`: whether the response was successful, and
    the parse result of its body (`none` models a body that is not valid JSON). -/
structure FetchResponse where
  ok : Bool
  body : Option LinkDocument
deriving Repr, DecidableEq

/-- `LinkTreeApp.loadJSON` (script.js lines 59-70): a non-success response
    raises a load failure naming the resource; an unparsable body raises a
    parse failure; otherwise the document is returned. -/
def loadJSON (filename : String) (response : FetchResponse) : Except String LinkDocument :=
  if !response.ok then Except.error ("Failed to load " ++ filename)
  else
    match response.body with
    | some data => Except.ok data
    | none => Except.error "ParseFailure"

/-- `LinkTreeApp.init` (script.js lines 43-57): load, then update the profile,
    then render the links; any failure is caught once and handled by
    `handleError` on the state reached at the failure point (the embedded
    renderers are total, so the loader is the only failure source). -/
def init (response : FetchResponse) (d : Dom) : Dom :=
  match loadJSON "links.json" response with
  | Except.ok data => renderLinks data.links (updateProfile data.profile d)
  | Except.error _ => handleError d

/-- A sample page state used to instantiate universally quantified theorems. -/
def dEx : Dom :=
  { profileImage := some { src := "default.png", alt := "Profile Picture" },
    profileName := some "Your Name",
    profileTitle := some "Your Title",
    profileBio := some "Your bio",
    docTitle := "Your Name | Links",
    container := ContainerContent.html "<p class=\"loading\">Loading...</p>" }

/-- A sample active link record (absent `active` field). -/
def linkA : LinkRecord :=
  { url := "https://a", title := "A", description := none, icon := none,
    active := none, analytics := none }

/-- A sample inactive link record (`active` strictly `false`). -/
def linkB : LinkRecord :=
  { url := "https://b", title := "B", description := none, icon := none,
    active := some false, analytics := none }

/- ===================== Helper lemmas ===================== -/

lemma lookup_mem {l : List (String × String)} {k v : String}
    (h : l.lookup k = some v) : ∃ kv, kv ∈ l ∧ kv.2 = v := by
  induction l with
  | nil => simp [List.lookup] at h
  | cons a t ih =>
    rcases a with ⟨k1, v1⟩
    rw [List.lookup] at h
    by_cases hk : (k == k1) = true
    · rw [hk] at h
      refine ⟨(k1, v1), List.mem_cons_self _ _, ?_⟩
      simpa using h
    · rw [Bool.not_eq_true] at hk
      rw [hk] at h
      obtain ⟨kv, hm, he⟩ := ih h
      exact ⟨kv, List.mem_cons_of_mem _ hm, he⟩

lemma truthyStr_of_ne {s : String} (h : s ≠ "") : truthyStr (some s) = true := by
  simp [truthyStr, h]

/- ===================== Icon resolver claims ===================== -/

/-- Claim C2 names a code bug: the token "constructor" is not an own key of
    `ICON_MAP`, is left unchanged by normalization and is no literal glyph,
    so the claim (and spec 4.4) demand the default glyph; but bracket access
    walks the prototype chain, finds the truthy inherited
    `Object.prototype.constructor` and `getIcon` returns that non-glyph
    value instead of the default. -/
theorem getIcon_proto_chain_leak :
    ICON_MAP.lookup "constructor" = none ∧
    jsTrim (jsToLower "constructor") = "constructor" ∧
    ¬(utf16Len "constructor" ≤ 3 ∧ hasPictographic "constructor" = true) ∧
    getIcon (some "constructor") = JsVal.inherited "constructor" ∧
    JsVal.inherited "constructor" ≠ JsVal.str mapDefault := by
  exact ⟨by decide, by decide, by decide, by decide, by decide⟩

/-- Counterexample to claim C3 as stated: at the input "constructor" the
    resolver does not return a glyph at all — the result is the value
    inherited from `Object.prototype`, not any string. -/
theorem getIcon_not_glyph_cex :
    ¬ ∃ g : String, getIcon (some "constructor") = JsVal.str g := by
  intro ⟨g, hg⟩
  rw [show getIcon (some "constructor") = JsVal.inherited "constructor" from by decide] at hg
  exact JsVal.noConfusion hg

/-- Claim C3 amended: `getIcon` is a total deterministic function — every
    input is mapped to exactly one value — and that value is a glyph (the
    default glyph, the token itself, or one of the glyphs of `ICON_MAP`)
    except when the normalized token is a property name inherited from
    `Object.prototype`, where it is that inherited non-glyph value. -/
theorem getIcon_total_deterministic (icon : Option String) :
    (∃! v, getIcon icon = v) ∧
    (getIcon icon = JsVal.str mapDefault ∨
      (∃ s, icon = some s ∧ getIcon icon = JsVal.str s) ∨
      (∃ kv, kv ∈ ICON_MAP ∧ getIcon icon = JsVal.str kv.2) ∨
      (∃ nm, nm ∈ objectProtoProps ∧ getIcon icon = JsVal.inherited nm)) := by
  refine ⟨⟨getIcon icon, rfl, fun y hy => hy.symm⟩, ?_⟩
  cases icon with
  | none => left; rfl
  | some s =>
    by_cases hT : truthyStr (some s) = true
    · by_cases hG : utf16Len s ≤ 3 ∧ hasPictographic s = true
      · right; left
        exact ⟨s, rfl, by simp [getIcon, hT, hG]⟩
      · cases hL : ICON_MAP.lookup (jsTrim (jsToLower s)) with
        | none =>
          by_cases hP : jsTrim (jsToLower s) ∈ objectProtoProps
          · right; right; right
            exact ⟨jsTrim (jsToLower s), hP,
              by simp [getIcon, hT, hG, iconMapGet, hL, hP, truthyVal]⟩
          · left; simp [getIcon, hT, hG, iconMapGet, hL, hP]
        | some g =>
          by_cases hg : (g != "") = true
          · right; right; left
            obtain ⟨kv, hm, he⟩ := lookup_mem hL
            refine ⟨kv, hm, ?_⟩
            rw [he]
            simp [getIcon, hT, hG, iconMapGet, hL, truthyVal, hg]
          · rw [Bool.not_eq_true] at hg
            left; simp [getIcon, hT, hG, iconMapGet, hL, truthyVal, hg]
    · rw [Bool.not_eq_true] at hT
      left; simp [getIcon, hT]

/-- Claim C4: a present token of at most three UTF-16 units containing a
    pictographic-range character is returned unchanged by `getIcon`. -/
theorem getIcon_literal_passthrough (s : String)
    (h1 : utf16Len s ≤ 3) (h2 : hasPictographic s = true) :
    getIcon (some s) = JsVal.str s := by
  have hne : s ≠ "" := by
    intro he
    subst he
    exact absurd h2 (by decide)
  simp [getIcon, truthyStr_of_ne hne, h1, h2]

/-- Witness for C4 at the concrete emoji token "🚀" (two UTF-16 units). -/
theorem getIcon_literal_passthrough_witness : getIcon (some "🚀") = JsVal.str "🚀" :=
  getIcon_literal_passthrough "🚀" (by decide) (by decide)

/- ===================== Link renderer claims ===================== -/

/-- Claim C1: for a non-empty input sequence, the rendered cards are exactly
    one card per record with `active` not strictly equal to `false`, built in
    the original order of the input (the surviving records form an
    order-preserving sublist), so their number equals the count of such
    records. -/
theorem renderLinks_count_and_order (ls : List LinkRecord) (d : Dom) (h : ls ≠ []) :
    ∃ cs, (renderLinks (some ls) d).container = ContainerContent.cards cs ∧
      cs.length = ls.countP (fun link => link.active != some false) ∧
      cs = (ls.filter (fun link => link.active != some false)).enum.map
        (fun pr => createLinkCard pr.2 pr.1) ∧
      List.Sublist (ls.filter (fun link => link.active != some false)) ls := by
  have hlen : ¬ ls.length = 0 := by simpa using h
  refine ⟨_, ?_, ?_, rfl, List.filter_sublist ls⟩
  · simp [renderLinks, hlen]
  · rw [List.length_map, List.enum_length, List.countP_eq_length_filter]

/-- Witness for C1 at a concrete two-record list with one inactive record. -/
theorem renderLinks_count_and_order_witness :
    ∃ cs, (renderLinks (some [linkA, linkB]) dEx).container = ContainerContent.cards cs ∧
      cs.length = List.countP (fun link => link.active != some false) [linkA, linkB] := by
  obtain ⟨cs, h1, h2, _, _⟩ := renderLinks_count_and_order [linkA, linkB] dEx (by decide)
  exact ⟨cs, h1, h2⟩

/-- Claim C7: when the links sequence is absent or empty, the container is
    set to the single no-links placeholder and zero cards are shown. -/
theorem renderLinks_empty_placeholder (links : Option (List LinkRecord)) (d : Dom)
    (h : links = none ∨ links = some []) :
    (renderLinks links d).container = ContainerContent.html noLinksHtml ∧
    cardsOf (renderLinks links d).container = [] := by
  rcases h with h | h <;> subst h
  · exact ⟨rfl, rfl⟩
  · exact ⟨rfl, rfl⟩

/-- Witness for C7 at the absent sequence and at the concrete empty sequence. -/
theorem renderLinks_empty_placeholder_witness :
    (renderLinks none dEx).container = ContainerContent.html noLinksHtml ∧
    cardsOf (renderLinks (some []) dEx).container = [] :=
  ⟨(renderLinks_empty_placeholder none dEx (Or.inl rfl)).1,
   (renderLinks_empty_placeholder (some []) dEx (Or.inr rfl)).2⟩

/-- Claim C10: a non-empty sequence in which every record has
    `active = false` clears the container and renders zero cards, and the
    no-links placeholder is not shown: the emptiness test is made on the raw
    input, before filtering. -/
theorem renderLinks_all_inactive (ls : List LinkRecord) (d : Dom)
    (h1 : ls ≠ []) (h2 : ∀ l ∈ ls, l.active = some false) :
    (renderLinks (some ls) d).container = ContainerContent.cards [] ∧
    ∀ s, (renderLinks (some ls) d).container ≠ ContainerContent.html s := by
  have hlen : ¬ ls.length = 0 := by simpa using h1
  have hfil : ls.filter (fun link => link.active != some false) = [] := by
    rw [List.filter_eq_nil_iff]
    intro a ha
    simp [h2 a ha]
  constructor
  · simp [renderLinks, hlen, hfil]
  · intro s
    simp [renderLinks, hlen, hfil]

/-- Witness for C10 at a concrete one-record list whose record is inactive. -/
theorem renderLinks_all_inactive_witness :
    (renderLinks (some [linkB]) dEx).container = ContainerContent.cards [] :=
  (renderLinks_all_inactive [linkB] dEx (by decide)
    (by intro l hl; simp at hl; rw [hl]; rfl)).1

/- ===================== Card description claim ===================== -/

/-- Counterexample to claim C9 as stated: a record whose `description` field
    is present but equal to `""` renders no description element, because the
    code tests JS truthiness, not presence. -/
theorem createLinkCard_empty_description_cex :
    ({ url := "https://x", title := "t", description := some "", icon := none,
       active := none, analytics := none } : LinkRecord).description ≠ none ∧
    (createLinkCard
      { url := "https://x", title := "t", description := some "", icon := none,
        active := none, analytics := none } 0).descriptionText = none := by
  exact ⟨by decide, rfl⟩

/-- Claim C9 amended: the card has a description element if and only if the
    record's `description` is present and non-empty (JS-truthy), and in that
    case its text is the description verbatim; otherwise the element is
    omitted entirely. -/
theorem createLinkCard_description (l : LinkRecord) (i : Nat) :
    ((createLinkCard l i).descriptionText ≠ none ↔
      (l.description ≠ none ∧ l.description ≠ some "")) ∧
    (∀ s, l.description = some s → s ≠ "" →
      (createLinkCard l i).descriptionText = some s) := by
  constructor
  · cases hd : l.description with
    | none => simp [createLinkCard, truthyStr, hd]
    | some s =>
      by_cases hs : s = ""
      · subst hs
        simp [createLinkCard, truthyStr, hd]
      · simp [createLinkCard, truthyStr, hd, hs]
  · intro s hd hs
    simp [createLinkCard, truthyStr, hd, hs]

/-- Witness for the amended C9 at a concrete record with a non-empty description. -/
theorem createLinkCard_description_witness :
    (createLinkCard
      { url := "https://x", title := "t", description := some "hello", icon := none,
        active := none, analytics := none } 0).descriptionText = some "hello" :=
  (createLinkCard_description
    { url := "https://x", title := "t", description := some "hello", icon := none,
      active := none, analytics := none } 0).2 "hello" rfl (by decide)

/- ===================== Profile renderer frame lemmas ===================== -/

lemma setImage_falsy {p : ProfileRecord} (d : Dom) (h : truthyStr p.image = false) :
    setImage p d = d := by
  simp [setImage, h]

lemma setName_falsy {p : ProfileRecord} (d : Dom) (h : truthyStr p.name = false) :
    setName p d = d := by
  simp [setName, h]

lemma setTitle_falsy {p : ProfileRecord} (d : Dom) (h : truthyStr p.title = false) :
    setTitle p d = d := by
  simp [setTitle, h]

lemma setBio_falsy {p : ProfileRecord} (d : Dom) (h : truthyStr p.bio = false) :
    setBio p d = d := by
  simp [setBio, h]

lemma setImage_frame (p : ProfileRecord) (d : Dom) :
    (setImage p d).profileName = d.profileName ∧
    (setImage p d).profileTitle = d.profileTitle ∧
    (setImage p d).profileBio = d.profileBio ∧
    (setImage p d).docTitle = d.docTitle ∧
    (setImage p d).container = d.container := by
  unfold setImage
  split
  · split <;> exact ⟨rfl, rfl, rfl, rfl, rfl⟩
  · exact ⟨rfl, rfl, rfl, rfl, rfl⟩

lemma setName_frame (p : ProfileRecord) (d : Dom) :
    (setName p d).profileImage = d.profileImage ∧
    (setName p d).profileTitle = d.profileTitle ∧
    (setName p d).profileBio = d.profileBio ∧
    (setName p d).container = d.container := by
  unfold setName
  split
  · split <;> exact ⟨rfl, rfl, rfl, rfl⟩
  · exact ⟨rfl, rfl, rfl, rfl⟩

lemma setTitle_frame (p : ProfileRecord) (d : Dom) :
    (setTitle p d).profileImage = d.profileImage ∧
    (setTitle p d).profileName = d.profileName ∧
    (setTitle p d).profileBio = d.profileBio ∧
    (setTitle p d).docTitle = d.docTitle ∧
    (setTitle p d).container = d.container := by
  unfold setTitle
  split
  · split <;> exact ⟨rfl, rfl, rfl, rfl, rfl⟩
  · exact ⟨rfl, rfl, rfl, rfl, rfl⟩

lemma setBio_frame (p : ProfileRecord) (d : Dom) :
    (setBio p d).profileImage = d.profileImage ∧
    (setBio p d).profileName = d.profileName ∧
    (setBio p d).profileTitle = d.profileTitle ∧
    (setBio p d).docTitle = d.docTitle ∧
    (setBio p d).container = d.container := by
  unfold setBio
  split
  · split <;> exact ⟨rfl, rfl, rfl, rfl, rfl⟩
  · exact ⟨rfl, rfl, rfl, rfl, rfl⟩

lemma setName_docTitle_truthy {p : ProfileRecord} (d : Dom) (h : truthyStr p.name = true) :
    (setName p d).docTitle =
      p.name.getD "" ++ " | " ++ (if truthyStr p.title then p.title.getD "" else "Links") := by
  unfold setName
  rw [h, if_pos rfl]

/- ===================== Profile renderer claims ===================== -/

/-- Claim C5: `updateProfile` only writes the presentation slots of fields
    the record provides: every slot whose field is absent keeps its prior
    content, and the links container is never touched. -/
theorem updateProfile_frame (p : ProfileRecord) (d : Dom) :
    (p.image = none → (updateProfile (some p) d).profileImage = d.profileImage) ∧
    (p.name = none → (updateProfile (some p) d).profileName = d.profileName) ∧
    (p.title = none → (updateProfile (some p) d).profileTitle = d.profileTitle) ∧
    (p.bio = none → (updateProfile (some p) d).profileBio = d.profileBio) ∧
    (updateProfile (some p) d).container = d.container := by
  have hup : updateProfile (some p) d = setBio p (setTitle p (setName p (setImage p d))) := rfl
  refine ⟨?_, ?_, ?_, ?_, ?_⟩ <;> rw [hup]
  · intro h
    rw [(setBio_frame p _).1, (setTitle_frame p _).1, (setName_frame p _).1,
      setImage_falsy _ (by rw [h]; rfl)]
  · intro h
    rw [(setBio_frame p _).2.1, (setTitle_frame p _).2.1,
      setName_falsy _ (by rw [h]; rfl), (setImage_frame p _).1]
  · intro h
    rw [(setBio_frame p _).2.2.1, setTitle_falsy _ (by rw [h]; rfl),
      (setName_frame p _).2.1, (setImage_frame p _).2.1]
  · intro h
    rw [setBio_falsy _ (by rw [h]; rfl), (setTitle_frame p _).2.2.1,
      (setName_frame p _).2.2.1, (setImage_frame p _).2.2.1]
  · rw [(setBio_frame p _).2.2.2.2, (setTitle_frame p _).2.2.2.2,
      (setName_frame p _).2.2.2, (setImage_frame p _).2.2.2.2]

/-- Witness for C5 at the all-absent record: no slot of the sample page changes. -/
theorem updateProfile_frame_witness :
    (updateProfile (some { image := none, name := none, title := none, bio := none })
        dEx).profileImage = dEx.profileImage ∧
    (updateProfile (some { image := none, name := none, title := none, bio := none })
        dEx).profileName = dEx.profileName ∧
    (updateProfile (some { image := none, name := none, title := none, bio := none })
        dEx).profileTitle = dEx.profileTitle ∧
    (updateProfile (some { image := none, name := none, title := none, bio := none })
        dEx).profileBio = dEx.profileBio := by
  have h := updateProfile_frame { image := none, name := none, title := none, bio := none } dEx
  exact ⟨h.1 rfl, h.2.1 rfl, h.2.2.1 rfl, h.2.2.2.1 rfl⟩

/-- Counterexample to claim C6 as stated: a record whose `name` is present
    but equal to `""` leaves the page heading unchanged, because the code
    tests JS truthiness, not presence; the claim instead demands the heading
    " | Links". -/
theorem updateProfile_empty_name_cex :
    ({ image := none, name := some "", title := none, bio := none } :
        ProfileRecord).name ≠ none ∧
    (updateProfile (some { image := none, name := some "", title := none, bio := none })
        dEx).docTitle = "Your Name | Links" ∧
    "Your Name | Links" ≠ " | Links" := by
  refine ⟨by decide, rfl, by decide⟩

/-- Claim C6 amended: when `name` is present and non-empty the page heading
    becomes `"{name} | {title}"` for a present non-empty `title` and
    `"{name} | Links"` when `title` is absent or empty; when `name` is absent
    or empty the heading is unchanged. -/
theorem updateProfile_docTitle (p : ProfileRecord) (d : Dom) :
    (∀ n, p.name = some n → n ≠ "" →
      ((∀ t, p.title = some t → t ≠ "" →
          (updateProfile (some p) d).docTitle = n ++ " | " ++ t) ∧
        ((p.title = none ∨ p.title = some "") →
          (updateProfile (some p) d).docTitle = n ++ " | " ++ "Links"))) ∧
    ((p.name = none ∨ p.name = some "") →
      (updateProfile (some p) d).docTitle = d.docTitle) := by
  have hup : updateProfile (some p) d = setBio p (setTitle p (setName p (setImage p d))) := rfl
  constructor
  · intro n hn hne
    have hT : truthyStr p.name = true := by rw [hn]; exact truthyStr_of_ne hne
    constructor
    · intro t ht hte
      rw [hup, (setBio_frame p _).2.2.2.1, (setTitle_frame p _).2.2.2.1,
        setName_docTitle_truthy _ hT, hn, ht]
      simp [truthyStr_of_ne hte]
    · intro h
      rw [hup, (setBio_frame p _).2.2.2.1, (setTitle_frame p _).2.2.2.1,
        setName_docTitle_truthy _ hT, hn]
      rcases h with h | h <;> rw [h] <;> rfl
  · intro h
    have hT : truthyStr p.name = false := by rcases h with h | h <;> rw [h] <;> rfl
    rw [hup, (setBio_frame p _).2.2.2.1, (setTitle_frame p _).2.2.2.1,
      setName_falsy _ hT, (setImage_frame p _).2.2.2.1]

/-- Witness for the amended C6: name "Ada" with an absent title yields the
    heading "Ada | Links", and name "Ada" with title "Dev" yields "Ada | Dev". -/
theorem updateProfile_docTitle_witness :
    (updateProfile (some { image := none, name := some "Ada", title := none, bio := none })
        dEx).docTitle = "Ada" ++ " | " ++ "Links" ∧
    (updateProfile (some { image := none, name := some "Ada", title := some "Dev", bio := none })
        dEx).docTitle = "Ada" ++ " | " ++ "Dev" :=
  ⟨((updateProfile_docTitle
      { image := none, name := some "Ada", title := none, bio := none } dEx).1
      "Ada" rfl (by decide)).2 (Or.inl rfl),
   ((updateProfile_docTitle
      { image := none, name := some "Ada", title := some "Dev", bio := none } dEx).1
      "Ada" rfl (by decide)).1 "Dev" rfl (by decide)⟩

/- ===================== Error handling claim ===================== -/

/-- Claim C8: when the load step fails (non-success response or unparsable
    body), initialization replaces the links container with the static error
    view showing zero cards, while the page title and every profile slot
    keep the state they had reached before the failure. -/
theorem init_failure_error_view (resp : FetchResponse) (d : Dom)
    (h : ∃ e, loadJSON "links.json" resp = Except.error e) :
    (init resp d).container = ContainerContent.html errorHtml ∧
    cardsOf (init resp d).container = [] ∧
    (init resp d).profileImage = d.profileImage ∧
    (init resp d).profileName = d.profileName ∧
    (init resp d).profileTitle = d.profileTitle ∧
    (init resp d).profileBio = d.profileBio ∧
    (init resp d).docTitle = d.docTitle := by
  obtain ⟨e, he⟩ := h
  unfold init
  rw [he]
  exact ⟨rfl, rfl, rfl, rfl, rfl, rfl, rfl⟩

/-- Witness for C8 at a concrete non-success fetch against the sample page:
    the error view is shown and the profile slots keep their pre-load defaults. -/
theorem init_failure_error_view_witness :
    (init { ok := false, body := none } dEx).container = ContainerContent.html errorHtml ∧
    (init { ok := false, body := none } dEx).profileName = dEx.profileName ∧
    (init { ok := false, body := none } dEx).docTitle = dEx.docTitle := by
  have h := init_failure_error_view { ok := false, body := none } dEx
    ⟨"Failed to load links.json", rfl⟩
  exact ⟨h.1, h.2.2.2.1, h.2.2.2.2.2.2⟩
